import Mathlib

/-!
Verification of the pipeline stage classifier of the work-context-protocol
repository.

The embedding follows `src/prompts/detect-stage.ts` (types `ArtifactState`,
`PipelineStage`, constants `PIPELINE_CHAIN`, `GATE_ARTIFACTS`, function
`detectPipelineStage`) and `src/prompts/helpers.ts` (`parseArtifactFrontmatter`,
`buildArtifactStates`).

Modelling conventions:
- A JavaScript `Map<string, ArtifactState>` becomes a function
  `String → Option ArtifactState` (`Snapshot`); `map.get(k)` returning
  `undefined` is `none`.
- The TypeScript non-null assertion `x!` is modelled as a `match` with a
  `none` branch returning `none` at top level, so `detectPipelineStage`
  returns `Option PipelineStage`; totality (the asserted lookups never fail)
  is proved as a theorem.
- JavaScript truthiness of an optional string field (`upstream.completedAt`)
  is `false` on both `undefined` and the empty string.
- `item.body` is `Option String`: the source guards `!item.body`, which also
  absorbs an absent body.
- JavaScript string comparison `>` and `String.prototype.trim` are spelled
  out as executable character-list functions (`jsStrLt`, `jsTrim`).
- The external artifact fetch (`adapter.getArtifact`, which may throw) is a
  parameter `String → Option String`; the external YAML frontmatter parser
  (`gray-matter`, which may throw) is a parameter
  `String → Option Frontmatter`, where `Frontmatter` records exactly the
  fields the source reads.
-/

/-- Approval verdict carried by a gate artifact (`"approved" | "rejected" | "pending"`). -/
inductive Approval where
  | approved
  | rejected
  | pending
deriving DecidableEq, Repr

/-- Parsed state of a single artifact, as in `interface ArtifactState`. -/
structure ArtifactState where
  filename : String
  exists' : Bool
  approval : Option Approval := none
  completedAt : Option String := none
  milestoneCount : Option Nat := none
  completedMilestones : Option Nat := none
deriving DecidableEq, Repr

/-- The artifact filenames that form the pipeline chain, in order (`PIPELINE_CHAIN`). -/
def PIPELINE_CHAIN : List String :=
  ["prd.md", "discovery-report.md", "architecture-proposal.md", "gameplan.md",
   "test-coverage-matrix.md", "progress.md", "review-report.md", "qa-plan.md"]

/-- Artifacts that require explicit approval before the pipeline proceeds (`GATE_ARTIFACTS`). -/
def GATE_ARTIFACTS : List String :=
  ["architecture-proposal.md", "gameplan.md"]

/-- The detected pipeline stage — the discriminated union `PipelineStage`. -/
inductive PipelineStage where
  | needs_body
  | stale (artifact : String) (upstream : String)
  | prd
  | discovery
  | architecture
  | gameplan
  | test_generation
  | implementation (milestone : Nat) (totalMilestones : Nat)
  | review
  | qa_plan
  | architecture_review
  | gameplan_review
  | complete
deriving DecidableEq, Repr

/-- The artifact-state map built for a work item: `Map<string, ArtifactState>`. -/
def Snapshot : Type := String → Option ArtifactState

/-- The slice of `WorkItem` that `detectPipelineStage` reads: its `body`.
`none` models an absent body (the source guards `!item.body`). -/
structure WorkItem where
  body : Option String
deriving DecidableEq

/-- The character class removed by JavaScript `String.prototype.trim`
(ECMA-262 WhiteSpace and LineTerminator code points). -/
def jsWhitespace (c : Char) : Bool :=
  c.toNat = 9 || c.toNat = 10 || c.toNat = 11 || c.toNat = 12 || c.toNat = 13 ||
  c.toNat = 32 || c.toNat = 160 || c.toNat = 5760 ||
  (8192 ≤ c.toNat && c.toNat ≤ 8202) || c.toNat = 8232 || c.toNat = 8233 ||
  c.toNat = 8239 || c.toNat = 8287 || c.toNat = 12288 || c.toNat = 65279

/-- JavaScript `s.trim()`: drop leading and trailing whitespace. -/
def jsTrim (s : String) : String :=
  ⟨((s.data.dropWhile jsWhitespace).reverse.dropWhile jsWhitespace).reverse⟩

/-- Character-list core of the JavaScript `<` comparison on strings:
lexicographic by character code. -/
def jsStrLtChars : List Char → List Char → Bool
  | _, [] => false
  | [], _ :: _ => true
  | a :: as, b :: bs =>
    if a.toNat < b.toNat then true
    else if b.toNat < a.toNat then false
    else jsStrLtChars as bs

/-- JavaScript `a < b` on strings (code points and UTF-16 code units agree on
the characters appearing in the timestamps compared here). -/
def jsStrLt (a b : String) : Bool :=
  jsStrLtChars a.data b.data

/-- The classifier's description gate: `!item.body || item.body.trim() === ""`. -/
def bodyIsBlank (item : WorkItem) : Bool :=
  match item.body with
  | none => true
  | some s => jsTrim s == ""

/-- The lookup `artifacts.get(k)?.exists` coerced to a boolean (an absent entry is falsy). -/
def existsAt (m : Snapshot) (k : String) : Bool :=
  match m k with
  | some st => st.exists'
  | none => false

/-- JavaScript truthiness of an optional string: `undefined` and `""` are falsy. -/
def strTruthy (o : Option String) : Bool :=
  match o with
  | none => false
  | some s => s != ""

/-- One iteration of the staleness loop body for the adjacent pair (`up`, `down`):
returns `some (stale …)` when both entries exist, both `completedAt` are truthy,
and the upstream timestamp is strictly greater. -/
def checkStalePair (m : Snapshot) (up down : String) : Option PipelineStage :=
  match m up, m down with
  | some u, some d =>
    if u.exists' && d.exists' && strTruthy u.completedAt && strTruthy d.completedAt then
      match u.completedAt, d.completedAt with
      | some uc, some dc =>
        if jsStrLt dc uc then some (.stale d.filename u.filename) else none
      | _, _ => none
    else none
  | _, _ => none

/-- The staleness loop of step 2: scan adjacent pairs in chain order and
return the first violating pair. -/
def stalenessScan (m : Snapshot) : List String → Option PipelineStage
  | up :: down :: rest =>
    match checkStalePair m up down with
    | some s => some s
    | none => stalenessScan m (down :: rest)
  | _ => none

/-- Steps 5–6 of `detectPipelineStage` (post-implementation checks). -/
def postImplementation (m : Snapshot) : Option PipelineStage :=
  if !existsAt m "review-report.md" then some .review
  else if !existsAt m "qa-plan.md" then some .qa_plan
  else some .complete

/-- The stage classifier `detectPipelineStage(item, artifacts)`.  The two
non-null-asserted lookups (`artifacts.get("architecture-proposal.md")!`,
`artifacts.get("gameplan.md")!`) are modelled by `match` arms whose `none`
case yields `none`; totality is proved separately. -/
def detectPipelineStage (item : WorkItem) (m : Snapshot) : Option PipelineStage :=
  -- 1. Check body
  if bodyIsBlank item then some .needs_body
  else
    -- 2. Check staleness — compare adjacent pairs in the chain
    match stalenessScan m PIPELINE_CHAIN with
    | some s => some s
    | none =>
      -- 3. Walk the pipeline chain — check artifact presence and gates
      if !existsAt m "prd.md" then some .prd
      else if !existsAt m "discovery-report.md" then some .discovery
      else if !existsAt m "architecture-proposal.md" then some .architecture
      else
        match m "architecture-proposal.md" with
        | none => none
        | some arch =>
          if arch.approval != some .approved then some .architecture_review
          else if !existsAt m "gameplan.md" then some .gameplan
          else
            match m "gameplan.md" with
            | none => none
            | some gp =>
              if gp.approval != some .approved then some .gameplan_review
              else if !existsAt m "test-coverage-matrix.md" then some .test_generation
              else
                -- 4. Milestone progression
                match m "gameplan.md" with
                | none => none
                | some gameplanState =>
                  let totalMilestones := gameplanState.milestoneCount
                  let completedMilestones :=
                    (m "progress.md").bind (fun st => st.completedMilestones)
                  match totalMilestones, completedMilestones with
                  | some n, some c =>
                    if c < n then some (.implementation (c + 1) n)
                    else postImplementation m
                  | tm, _ =>
                    if !existsAt m "review-report.md" then
                      some (.implementation 1 (tm.getD 1))
                    else postImplementation m

/-! ## Snapshot builder (`src/prompts/helpers.ts`) -/

/-- The frontmatter fields of an artifact that `buildArtifactStates` reads:
`pipeline_completed_at`, `approval`, and the truthiness of
`pipeline_m{i}_completed_at` for each milestone index `i`. -/
structure Frontmatter where
  pipeline_completed_at : Option String := none
  approval : Option Approval := none
  mCompleted : Nat → Bool := fun _ => false

/-- The external YAML parser (`gray-matter`): `none` models a parse throw. -/
abbrev MatterParser : Type := String → Option Frontmatter

/-- The external fetch capability (`adapter.getArtifact`): `none` models a throw. -/
abbrev Fetcher : Type := String → Option String

/-- The function `parseArtifactFrontmatter(content)`: `matter(content).data`,
with a thrown parse error absorbed into the empty record `{}`. -/
def parseArtifactFrontmatter (p : MatterParser) (content : String) : Frontmatter :=
  (p content).getD {}

/-- The artifact references of a work item, reduced to the fields
`buildArtifactStates` reads (`a.url`). -/
structure ArtifactRef where
  url : String
deriving DecidableEq

/-- The expression `url.split("/").pop()!` — the final path segment of an
artifact URL, i.e. the characters after the last `/` (the whole string when
no `/` occurs). -/
def lastSegment (url : String) : String :=
  ⟨(url.data.reverse.takeWhile (fun c => c != '/')).reverse⟩

/-- The set of artifact filenames from work item metadata:
`new Set(item.artifacts.map(a => a.url.split("/").pop()!))`. -/
def existingFiles (artifacts : List ArtifactRef) : List String :=
  artifacts.map (fun a => lastSegment a.url)

/-- Does this line match the milestone-heading pattern of
`content.match(/^## M\d+:/gm)`? -/
def isMilestoneHeading (line : String) : Bool :=
  match line.drop 4 |>.takeWhile Char.isDigit with
  | digits =>
    line.startsWith "## M" && digits != "" &&
      (line.drop (4 + digits.length)).startsWith ":"

/-- The gameplan milestone count: the number of lines matching `^## M\d+:`. -/
def countMilestoneHeadings (content : String) : Nat :=
  ((content.splitOn "\n").filter isMilestoneHeading).length

/-- The contiguous-prefix scan over `pipeline_m{i}_completed_at` markers,
starting at index `i` with `fuel` iterations remaining. -/
def countCompletedFrom (f : Nat → Bool) : Nat → Nat → Nat
  | _, 0 => 0
  | i, fuel + 1 => if f i then countCompletedFrom f (i + 1) fuel + 1 else 0

/-- The `completedMilestones` extraction: `for (i = 1; i <= 100; i++)` counting
a contiguous run of truthy markers. -/
def countCompletedMilestones (f : Nat → Bool) : Nat :=
  countCompletedFrom f 1 100

/-- The state recorded for one chain filename by the loop body of
`buildArtifactStates`. -/
def buildArtifactState (p : MatterParser) (fetch : Fetcher)
    (existing : List String) (filename : String) : ArtifactState :=
  if filename ∉ existing then
    { filename := filename, exists' := false }
  else
    match fetch filename with
    | none =>
      -- Artifact listed in frontmatter but file missing — treat as non-existent
      { filename := filename, exists' := false }
    | some content =>
      let fm := parseArtifactFrontmatter p content
      { filename := filename
        exists' := true
        completedAt := fm.pipeline_completed_at
        approval :=
          if filename ∈ GATE_ARTIFACTS then some (fm.approval.getD .pending) else none
        milestoneCount :=
          if filename = "gameplan.md" then some (countMilestoneHeadings content) else none
        completedMilestones :=
          if filename = "progress.md" then some (countCompletedMilestones fm.mCompleted)
          else none }

/-- The map built by `buildArtifactStates(adapter, item)`: one entry for every
chain filename, and nothing else. -/
def buildArtifactStates (p : MatterParser) (fetch : Fetcher)
    (artifacts : List ArtifactRef) : Snapshot :=
  fun k =>
    if k ∈ PIPELINE_CHAIN then
      some (buildArtifactState p fetch (existingFiles artifacts) k)
    else none


/-! ## Concrete inputs used by witnesses and counterexamples -/

/-- A snapshot with the approval verdict of the entry at `k` replaced by `v`
(the entry's other fields, and all other entries, unchanged). -/
def setApproval (m : Snapshot) (k : String) (v : Option Approval) : Snapshot :=
  fun q => if q = k then (m k).map (fun st => { st with approval := v }) else m q

/-- A work item with a non-blank description. -/
def itemOk : WorkItem := ⟨some "Implement the feature"⟩

/-- The empty snapshot: no artifact has an entry. -/
def snapEmpty : Snapshot := fun _ => none

/-- A snapshot where prd.md and discovery-report.md exist and the upstream
completion timestamp is the later one. -/
def snapStale : Snapshot := fun k =>
  if k = "prd.md" then
    some { filename := "prd.md", exists' := true,
           completedAt := some "2024-02-02T10:00:00Z" }
  else if k = "discovery-report.md" then
    some { filename := "discovery-report.md", exists' := true,
           completedAt := some "2024-02-01T10:00:00Z" }
  else none

/-- A snapshot where prd.md is missing (the first missing chain kind) while a
later adjacent pair (gameplan.md, test-coverage-matrix.md) exists and is
stale. -/
def snapGapThenStale : Snapshot := fun k =>
  if k = "gameplan.md" then
    some { filename := "gameplan.md", exists' := true,
           completedAt := some "2024-06-02T00:00:00Z" }
  else if k = "test-coverage-matrix.md" then
    some { filename := "test-coverage-matrix.md", exists' := true,
           completedAt := some "2024-06-01T00:00:00Z" }
  else none

/-- A snapshot in mid-implementation: first five chain artifacts exist, both
gates approved, three milestones planned, one completed. -/
def snapImpl : Snapshot := fun k =>
  if k = "prd.md" then
    some { filename := "prd.md", exists' := true }
  else if k = "discovery-report.md" then
    some { filename := "discovery-report.md", exists' := true }
  else if k = "architecture-proposal.md" then
    some { filename := "architecture-proposal.md", exists' := true,
           approval := some .approved }
  else if k = "gameplan.md" then
    some { filename := "gameplan.md", exists' := true,
           approval := some .approved, milestoneCount := some 3 }
  else if k = "test-coverage-matrix.md" then
    some { filename := "test-coverage-matrix.md", exists' := true }
  else if k = "progress.md" then
    some { filename := "progress.md", exists' := true,
           completedMilestones := some 1 }
  else none

/-- A snapshot like `snapImpl` but with no progress entry, so milestone data
is not fully known; review-report.md does not exist. -/
def snapImplNoData : Snapshot := fun k =>
  if k = "progress.md" then none else snapImpl k

/-- A snapshot like `snapImpl` but with all three milestones completed. -/
def snapDone : Snapshot := fun k =>
  if k = "progress.md" then
    some { filename := "progress.md", exists' := true,
           completedMilestones := some 3 }
  else snapImpl k

/-- A frontmatter record whose per-milestone completion markers are all set. -/
def fmAllMilestones : Frontmatter := { mCompleted := fun _ => true }

/-- A parser that successfully parses every content into `fmAllMilestones`. -/
def parserAllMilestones : MatterParser := fun _ => some fmAllMilestones

/-- A parser that throws on every content. -/
def parserThrows : MatterParser := fun _ => none

/-- A fetch capability that returns a fixed document for every filename. -/
def fetchStub : Fetcher := fun _ => some "# document"

/-- A fetch capability that throws for every filename. -/
def fetchThrows : Fetcher := fun _ => none

/-- An artifact-reference list referencing progress.md only. -/
def artsProgress : List ArtifactRef := [⟨"wcp://W-1/progress.md"⟩]

/-- An artifact-reference list referencing prd.md only. -/
def artsPrd : List ArtifactRef := [⟨"wcp://W-1/prd.md"⟩]

/-! ## General lemmas about the classifier -/

theorem existsAt_of_none {m : Snapshot} {k : String} (h : m k = none) :
    existsAt m k = false := by
  simp [existsAt, h]

theorem existsAt_of_some {m : Snapshot} {k : String} {st : ArtifactState}
    (h : m k = some st) : existsAt m k = st.exists' := by
  simp [existsAt, h]

theorem postImplementation_isSome (m : Snapshot) :
    (postImplementation m).isSome = true := by
  unfold postImplementation
  split
  · rfl
  · split <;> rfl

set_option maxHeartbeats 1000000 in
/-- Claim C8: the classifier is total — for every work item and every
artifact-state map, including maps that have no entry at all for some chain
kinds, `detectPipelineStage` terminates with exactly one `PipelineStage`
variant and never falls into a `none` arm: the modelled non-null assertions
are only reached after the corresponding existence checks guarantee the
entry is present. -/
theorem detectPipelineStage_total (item : WorkItem) (m : Snapshot) :
    (detectPipelineStage item m).isSome = true := by
  unfold detectPipelineStage
  repeat' split
  all_goals first
    | rfl
    | exact postImplementation_isSome m
    | simp_all [existsAt]
  all_goals repeat' split
  all_goals first
    | rfl
    | exact postImplementation_isSome m

theorem checkStalePair_isStale {m : Snapshot} {up down : String}
    {s : PipelineStage} (h : checkStalePair m up down = some s) :
    ∃ a b, s = PipelineStage.stale a b := by
  unfold checkStalePair at h
  repeat' split at h
  all_goals try cases h
  all_goals exact ⟨_, _, rfl⟩

theorem stalenessScan_isStale {m : Snapshot} :
    ∀ (l : List String) (s : PipelineStage),
      stalenessScan m l = some s → ∃ a b, s = PipelineStage.stale a b
  | [], _, h => by simp [stalenessScan] at h
  | [_], _, h => by simp [stalenessScan] at h
  | up :: down :: rest, s, h => by
    rw [stalenessScan] at h
    rcases hc : checkStalePair m up down with _ | s'
    · rw [hc] at h
      exact stalenessScan_isStale (down :: rest) s h
    · simp only [hc] at h
      exact checkStalePair_isStale (hc.trans h)

theorem stalenessScan_eq_of_first {m : Snapshot} :
    ∀ (l : List String) (i : Nat) (s : PipelineStage),
      i + 1 < l.length →
      (∀ j, j < i → checkStalePair m (l.getD j "") (l.getD (j + 1) "") = none) →
      checkStalePair m (l.getD i "") (l.getD (i + 1) "") = some s →
      stalenessScan m l = some s
  | [], _, _, hi, _, _ => by simp at hi
  | [_], _, _, hi, _, _ => by simp at hi
  | up :: down :: rest, i, s, hi, hmin, hpair => by
    rw [stalenessScan]
    cases i with
    | zero =>
      simp only [List.getD_cons_zero, List.getD_cons_succ] at hpair
      rw [hpair]
    | succ j =>
      have h0 : checkStalePair m up down = none := by
        simpa using hmin 0 (Nat.succ_pos j)
      rw [h0]
      refine stalenessScan_eq_of_first (down :: rest) j s ?_ ?_ ?_
      · simp only [List.length_cons] at hi ⊢
        omega
      · intro j' hj'
        simpa using hmin (j' + 1) (Nat.succ_lt_succ hj')
      · simpa using hpair

theorem existsAt_setApproval (m : Snapshot) (k : String) (v : Option Approval)
    (q : String) : existsAt (setApproval m k v) q = existsAt m q := by
  unfold existsAt setApproval
  by_cases h : q = k
  · subst h
    cases m q <;> simp
  · simp [h]

theorem checkStalePair_setApproval (m : Snapshot) (k : String)
    (v : Option Approval) (up down : String) :
    checkStalePair (setApproval m k v) up down = checkStalePair m up down := by
  unfold checkStalePair setApproval
  by_cases h1 : up = k <;> by_cases h2 : down = k <;>
    cases hu : m up <;> cases hd : m down <;> simp_all

theorem stalenessScan_setApproval (m : Snapshot) (k : String) (v : Option Approval) :
    ∀ l : List String, stalenessScan (setApproval m k v) l = stalenessScan m l
  | [] => rfl
  | [_] => rfl
  | up :: down :: rest => by
    rw [stalenessScan, stalenessScan, checkStalePair_setApproval]
    cases checkStalePair m up down with
    | none => simpa using stalenessScan_setApproval m k v (down :: rest)
    | some s => simp

/-! ## Claim theorems -/

/-- Claim C5: for every work item whose description (body) is empty, absent,
or whitespace-only, `detectPipelineStage` returns `needs_body` regardless of
the artifact-state snapshot. -/
theorem detect_needs_body (item : WorkItem) (m : Snapshot)
    (h : item.body = none ∨ ∃ s, item.body = some s ∧ jsTrim s = "") :
    detectPipelineStage item m = some PipelineStage.needs_body := by
  have hb : bodyIsBlank item = true := by
    rcases h with h | ⟨s, hs, ht⟩ <;> simp [bodyIsBlank, *]
  simp [detectPipelineStage, hb]

theorem detect_needs_body_witness :
    ((⟨some " \t\n"⟩ : WorkItem).body = none ∨
      ∃ s, (⟨some " \t\n"⟩ : WorkItem).body = some s ∧ jsTrim s = "") ∧
    detectPipelineStage ⟨some " \t\n"⟩ (fun _ => none) =
      some PipelineStage.needs_body :=
  ⟨Or.inr ⟨" \t\n", rfl, by decide⟩,
   detect_needs_body ⟨some " \t\n"⟩ (fun _ => none)
     (Or.inr ⟨" \t\n", rfl, by decide⟩)⟩

/-- Claim C2: for a work item with non-empty description, if pair
(`i`, `i + 1`) is the lowest-index adjacent chain pair in which both
artifacts exist, both carry a (truthy) `completedAt` timestamp and the
upstream timestamp is strictly later, then `detectPipelineStage` returns
`stale(downstream, upstream)` — even if some chain kind beyond the
downstream artifact is missing; and any adjacent pair where either artifact
is missing or lacks a `completedAt` never produces the stale result. -/
theorem detect_stale_priority (item : WorkItem) (m : Snapshot) (i : Nat)
    (u d : ArtifactState) (uc dc : String)
    (hb : bodyIsBlank item = false)
    (hi : i + 1 < PIPELINE_CHAIN.length)
    (hu : m (PIPELINE_CHAIN.getD i "") = some u)
    (hd : m (PIPELINE_CHAIN.getD (i + 1) "") = some d)
    (hux : u.exists' = true) (hdx : d.exists' = true)
    (huc : u.completedAt = some uc) (hdc : d.completedAt = some dc)
    (hucne : uc ≠ "") (hdcne : dc ≠ "")
    (hlt : jsStrLt dc uc = true)
    (hmin : ∀ j, j < i →
      checkStalePair m (PIPELINE_CHAIN.getD j "") (PIPELINE_CHAIN.getD (j + 1) "") = none) :
    detectPipelineStage item m =
      some (PipelineStage.stale d.filename u.filename) ∧
    (∀ up down : String,
      (existsAt m up = false ∨ existsAt m down = false ∨
        (m up).bind (fun st => st.completedAt) = none ∨
        (m down).bind (fun st => st.completedAt) = none) →
      checkStalePair m up down = none) := by
  constructor
  · have hpair : checkStalePair m (PIPELINE_CHAIN.getD i "") (PIPELINE_CHAIN.getD (i + 1) "") =
        some (PipelineStage.stale d.filename u.filename) := by
      unfold checkStalePair
      rw [hu, hd]
      simp [hux, hdx, strTruthy, huc, hdc, hucne, hdcne, hlt]
    have hscan := stalenessScan_eq_of_first PIPELINE_CHAIN i _ hi hmin hpair
    simp [detectPipelineStage, hb, hscan]
  · intro up down hcase
    rcases h1 : m up with _ | u'
    · simp [checkStalePair, h1]
    rcases h2 : m down with _ | d'
    · simp [checkStalePair, h1, h2]
    rw [existsAt_of_some h1, existsAt_of_some h2, h1, h2] at hcase
    simp only [Option.some_bind] at hcase
    rcases hcase with hc | hc | hc | hc <;>
      simp [checkStalePair, h1, h2, hc, strTruthy]

theorem detect_stale_priority_witness :
    detectPipelineStage itemOk snapStale =
      some (PipelineStage.stale "discovery-report.md" "prd.md") :=
  (detect_stale_priority itemOk snapStale 0
    { filename := "prd.md", exists' := true,
      completedAt := some "2024-02-02T10:00:00Z" }
    { filename := "discovery-report.md", exists' := true,
      completedAt := some "2024-02-01T10:00:00Z" }
    "2024-02-02T10:00:00Z" "2024-02-01T10:00:00Z"
    (by decide) (by decide) (by decide) (by decide) rfl rfl rfl rfl
    (by decide) (by decide) (by decide)
    (fun j hj => absurd hj (Nat.not_lt_zero j))).1

/-- Claim C1 counterexample: a snapshot whose first missing chain kind is
prd.md (index 0, so no adjacent pair lies before it) in which the classifier
nevertheless does not return the prd generate-stage: a later adjacent
existing pair (gameplan.md, test-coverage-matrix.md) is stale, and the
staleness scan runs over the whole chain before the walk. -/
theorem detect_first_gap_counterexample :
    bodyIsBlank itemOk = false ∧
    existsAt snapGapThenStale "prd.md" = false ∧
    detectPipelineStage itemOk snapGapThenStale =
      some (PipelineStage.stale "test-coverage-matrix.md" "gameplan.md") ∧
    detectPipelineStage itemOk snapGapThenStale ≠ some PipelineStage.prd := by
  refine ⟨by decide, by decide, by decide, by decide⟩

/-- Claim C1 (amended): for a work item with non-empty description and a
snapshot in which no adjacent existing pair anywhere in the chain is stale
(the staleness scan finds nothing), the classifier returns the
generate-stage variant for the first missing kind among the first five chain
kinds, provided each gate artifact lying before that kind is approved; the
walk stops there. -/
theorem detect_first_gap (item : WorkItem) (m : Snapshot)
    (hb : bodyIsBlank item = false)
    (hscan : stalenessScan m PIPELINE_CHAIN = none) :
    (existsAt m "prd.md" = false →
      detectPipelineStage item m = some PipelineStage.prd) ∧
    (existsAt m "prd.md" = true → existsAt m "discovery-report.md" = false →
      detectPipelineStage item m = some PipelineStage.discovery) ∧
    (existsAt m "prd.md" = true → existsAt m "discovery-report.md" = true →
      existsAt m "architecture-proposal.md" = false →
      detectPipelineStage item m = some PipelineStage.architecture) ∧
    (∀ a : ArtifactState,
      existsAt m "prd.md" = true → existsAt m "discovery-report.md" = true →
      m "architecture-proposal.md" = some a → a.exists' = true →
      a.approval = some Approval.approved →
      existsAt m "gameplan.md" = false →
      detectPipelineStage item m = some PipelineStage.gameplan) ∧
    (∀ a g : ArtifactState,
      existsAt m "prd.md" = true → existsAt m "discovery-report.md" = true →
      m "architecture-proposal.md" = some a → a.exists' = true →
      a.approval = some Approval.approved →
      m "gameplan.md" = some g → g.exists' = true →
      g.approval = some Approval.approved →
      existsAt m "test-coverage-matrix.md" = false →
      detectPipelineStage item m = some PipelineStage.test_generation) := by
  refine ⟨?_, ?_, ?_, ?_, ?_⟩
  · intro h1
    simp [detectPipelineStage, hb, hscan, h1]
  · intro h1 h2
    simp [detectPipelineStage, hb, hscan, h1, h2]
  · intro h1 h2 h3
    simp [detectPipelineStage, hb, hscan, h1, h2, h3]
  · intro a h1 h2 ha hax haap h4
    simp [detectPipelineStage, hb, hscan, h1, h2, existsAt_of_some ha, hax,
      ha, haap, h4]
  · intro a g h1 h2 ha hax haap hg hgx hgap h5
    simp [detectPipelineStage, hb, hscan, h1, h2, existsAt_of_some ha,
      existsAt_of_some hg, hax, hgx, ha, hg, haap, hgap, h5]

theorem detect_first_gap_witness :
    detectPipelineStage itemOk snapEmpty = some PipelineStage.prd :=
  (detect_first_gap itemOk snapEmpty (by decide) (by decide)).1 (by decide)

/-- Claim C3: with a non-empty description, no stale adjacent pair, the first
five chain artifacts existing, both gates approved, the gameplan's
`milestoneCount = n` and the progress log's `completedMilestones = c` both
defined and `c < n`, the classifier returns
`implementation(milestone = c + 1, totalMilestones = n)`. -/
theorem detect_implementation_next (item : WorkItem) (m : Snapshot)
    (a g pr : ArtifactState) (n c : Nat)
    (hb : bodyIsBlank item = false)
    (hscan : stalenessScan m PIPELINE_CHAIN = none)
    (hprd : existsAt m "prd.md" = true)
    (hdis : existsAt m "discovery-report.md" = true)
    (ha : m "architecture-proposal.md" = some a) (hax : a.exists' = true)
    (haap : a.approval = some Approval.approved)
    (hg : m "gameplan.md" = some g) (hgx : g.exists' = true)
    (hgap : g.approval = some Approval.approved)
    (htcm : existsAt m "test-coverage-matrix.md" = true)
    (hgn : g.milestoneCount = some n)
    (hp : m "progress.md" = some pr)
    (hpc : pr.completedMilestones = some c)
    (hcn : c < n) :
    detectPipelineStage item m =
      some (PipelineStage.implementation (c + 1) n) := by
  simp [detectPipelineStage, hb, hscan, hprd, hdis, htcm,
    existsAt_of_some ha, existsAt_of_some hg, hax, hgx,
    ha, hg, haap, hgap, hgn, hp, hpc, hcn]

theorem detect_implementation_next_witness :
    detectPipelineStage itemOk snapImpl =
      some (PipelineStage.implementation 2 3) :=
  detect_implementation_next itemOk snapImpl
    { filename := "architecture-proposal.md", exists' := true,
      approval := some .approved }
    { filename := "gameplan.md", exists' := true,
      approval := some .approved, milestoneCount := some 3 }
    { filename := "progress.md", exists' := true,
      completedMilestones := some 1 }
    3 1
    (by decide) (by decide) (by decide) (by decide) (by decide) (by decide)
    (by decide) (by decide) (by decide) (by decide) (by decide) (by decide)
    (by decide) (by decide) (by decide)

/-- Claim C4: whenever the chain walk reaches an existing gate artifact, the
approval values `rejected`, `pending` and absent all produce the identical
result — the review-stage variant of that gate (`architecture_review` for
the design proposal, `gameplan_review` for the plan document); stated on the
same snapshot with only the gate's approval replaced. -/
theorem detect_gate_equivalence (item : WorkItem) (m : Snapshot)
    (hb : bodyIsBlank item = false)
    (hscan : stalenessScan m PIPELINE_CHAIN = none)
    (hprd : existsAt m "prd.md" = true)
    (hdis : existsAt m "discovery-report.md" = true) :
    (∀ a : ArtifactState, m "architecture-proposal.md" = some a →
      a.exists' = true →
      ∀ v : Option Approval, v ≠ some Approval.approved →
        detectPipelineStage item (setApproval m "architecture-proposal.md" v) =
          some PipelineStage.architecture_review) ∧
    (∀ a g : ArtifactState, m "architecture-proposal.md" = some a →
      a.exists' = true → a.approval = some Approval.approved →
      m "gameplan.md" = some g → g.exists' = true →
      ∀ v : Option Approval, v ≠ some Approval.approved →
        detectPipelineStage item (setApproval m "gameplan.md" v) =
          some PipelineStage.gameplan_review) := by
  constructor
  · intro a ha hax v hv
    have hm : setApproval m "architecture-proposal.md" v "architecture-proposal.md" =
        some { a with approval := v } := by
      simp [setApproval, ha]
    simp [detectPipelineStage, hb,
      stalenessScan_setApproval, hscan,
      existsAt_setApproval, hprd, hdis,
      existsAt_of_some ha, hax, hm, hv]
  · intro a g ha hax haap hg hgx v hv
    have hm : setApproval m "gameplan.md" v "gameplan.md" =
        some { g with approval := v } := by
      simp [setApproval, hg]
    have hma : setApproval m "gameplan.md" v "architecture-proposal.md" = some a := by
      simp [setApproval, ha]
    simp [detectPipelineStage, hb,
      stalenessScan_setApproval, hscan,
      existsAt_setApproval, hprd, hdis,
      existsAt_of_some ha, existsAt_of_some hg, hax, hgx,
      hm, hma, haap, hv]

theorem detect_gate_equivalence_witness :
    detectPipelineStage itemOk
        (setApproval snapImpl "architecture-proposal.md" (some Approval.rejected)) =
      some PipelineStage.architecture_review ∧
    detectPipelineStage itemOk
        (setApproval snapImpl "architecture-proposal.md" (some Approval.pending)) =
      some PipelineStage.architecture_review ∧
    detectPipelineStage itemOk
        (setApproval snapImpl "architecture-proposal.md" none) =
      some PipelineStage.architecture_review ∧
    detectPipelineStage itemOk
        (setApproval snapImpl "gameplan.md" (some Approval.rejected)) =
      some PipelineStage.gameplan_review :=
  have h := detect_gate_equivalence itemOk snapImpl
    (by decide) (by decide) (by decide) (by decide)
  have harch := h.1
    { filename := "architecture-proposal.md", exists' := true,
      approval := some .approved }
    (by decide) (by decide)
  have hgp := h.2
    { filename := "architecture-proposal.md", exists' := true,
      approval := some .approved }
    { filename := "gameplan.md", exists' := true,
      approval := some .approved, milestoneCount := some 3 }
    (by decide) (by decide) (by decide) (by decide) (by decide)
  ⟨harch (some Approval.rejected) (by decide),
   harch (some Approval.pending) (by decide),
   harch none (by decide),
   hgp (some Approval.rejected) (by decide)⟩

/-- Claim C6: with a non-empty description, no stale adjacent pair, the first
five chain artifacts existing and both gates approved, if `milestoneCount`
and `completedMilestones` are not both defined and review-report.md does not
exist, the classifier returns `implementation(milestone = 1,
totalMilestones = milestoneCount ?? 1)`. -/
theorem detect_implementation_default (item : WorkItem) (m : Snapshot)
    (a g : ArtifactState)
    (hb : bodyIsBlank item = false)
    (hscan : stalenessScan m PIPELINE_CHAIN = none)
    (hprd : existsAt m "prd.md" = true)
    (hdis : existsAt m "discovery-report.md" = true)
    (ha : m "architecture-proposal.md" = some a) (hax : a.exists' = true)
    (haap : a.approval = some Approval.approved)
    (hg : m "gameplan.md" = some g) (hgx : g.exists' = true)
    (hgap : g.approval = some Approval.approved)
    (htcm : existsAt m "test-coverage-matrix.md" = true)
    (hnotboth : g.milestoneCount = none ∨
      (m "progress.md").bind (fun st => st.completedMilestones) = none)
    (hrev : existsAt m "review-report.md" = false) :
    detectPipelineStage item m =
      some (PipelineStage.implementation 1 (g.milestoneCount.getD 1)) := by
  rcases hnotboth with hn | hc
  · simp [detectPipelineStage, hb, hscan, hprd, hdis, htcm,
      existsAt_of_some ha, existsAt_of_some hg, hax, hgx,
      ha, hg, haap, hgap, hn, hrev]
  · rcases hgn : g.milestoneCount with _ | n <;>
      simp [detectPipelineStage, hb, hscan, hprd, hdis, htcm,
        existsAt_of_some ha, existsAt_of_some hg, hax, hgx,
        ha, hg, haap, hgap, hgn, hc, hrev]

theorem detect_implementation_default_witness :
    detectPipelineStage itemOk snapImplNoData =
      some (PipelineStage.implementation 1 3) :=
  detect_implementation_default itemOk snapImplNoData
    { filename := "architecture-proposal.md", exists' := true,
      approval := some .approved }
    { filename := "gameplan.md", exists' := true,
      approval := some .approved, milestoneCount := some 3 }
    (by decide) (by decide) (by decide) (by decide) (by decide) (by decide)
    (by decide) (by decide) (by decide) (by decide) (by decide)
    (Or.inr (by decide)) (by decide)

theorem postImplementation_ne_implementation (m : Snapshot) (mi tot : Nat) :
    postImplementation m ≠ some (PipelineStage.implementation mi tot) := by
  unfold postImplementation
  split
  · simp
  · split <;> simp

/-- Claim C10: when the gameplan's `milestoneCount = n` and the progress
log's `completedMilestones = c` are both defined with `c ≥ n` (including
`n = 0`), the classifier never returns an implementation stage; and when the
earlier description, staleness, existence and gate checks pass, it returns
`review`, `qa_plan` or `complete` according to whether review-report.md and
qa-plan.md exist. -/
theorem detect_no_implementation_when_complete (item : WorkItem) (m : Snapshot)
    (g pr : ArtifactState) (n c : Nat)
    (hg : m "gameplan.md" = some g) (hgn : g.milestoneCount = some n)
    (hp : m "progress.md" = some pr) (hpc : pr.completedMilestones = some c)
    (hcn : n ≤ c) :
    (∀ mi tot : Nat,
      detectPipelineStage item m ≠ some (PipelineStage.implementation mi tot)) ∧
    (bodyIsBlank item = false → stalenessScan m PIPELINE_CHAIN = none →
      existsAt m "prd.md" = true → existsAt m "discovery-report.md" = true →
      ∀ a : ArtifactState, m "architecture-proposal.md" = some a →
        a.exists' = true → a.approval = some Approval.approved →
      g.exists' = true → g.approval = some Approval.approved →
      existsAt m "test-coverage-matrix.md" = true →
      detectPipelineStage item m =
        (if existsAt m "review-report.md" = false then some PipelineStage.review
         else if existsAt m "qa-plan.md" = false then some PipelineStage.qa_plan
         else some PipelineStage.complete)) := by
  constructor
  · intro mi tot hcontra
    unfold detectPipelineStage at hcontra
    split at hcontra
    · simp at hcontra
    · split at hcontra
      · rename_i s heq
        obtain ⟨x, y, rfl⟩ := stalenessScan_isStale _ _ heq
        simp at hcontra
      · repeat' split at hcontra
        all_goals try simp_all
        all_goals
          rw [if_neg (Nat.not_lt.mpr hcn)] at hcontra
        all_goals
          exact postImplementation_ne_implementation m mi tot hcontra
  · intro hb hscan hprd hdis a ha hax haap hgx hgap htcm
    have hnot : ¬ (c < n) := Nat.not_lt.mpr hcn
    cases hrev : existsAt m "review-report.md" <;>
      cases hqa : existsAt m "qa-plan.md" <;>
        simp [detectPipelineStage, postImplementation, hb, hscan, hprd, hdis,
          htcm, existsAt_of_some ha, existsAt_of_some hg, hax, hgx,
          ha, hg, haap, hgap, hgn, hp, hpc, hnot, hrev, hqa]

theorem detect_no_implementation_when_complete_witness :
    detectPipelineStage itemOk snapDone = some PipelineStage.review :=
  have h := detect_no_implementation_when_complete itemOk snapDone
    { filename := "gameplan.md", exists' := true,
      approval := some .approved, milestoneCount := some 3 }
    { filename := "progress.md", exists' := true,
      completedMilestones := some 3 }
    3 3 (by decide) (by decide) (by decide) (by decide) (by decide)
  by
    have h2 := h.2 (by decide) (by decide) (by decide) (by decide)
      { filename := "architecture-proposal.md", exists' := true,
        approval := some .approved }
      (by decide) (by decide) (by decide) (by decide) (by decide) (by decide)
    rw [h2]
    decide

/-- Claim C7: for every chain kind referenced by the work item, a failed
content fetch (the read capability throws) is recorded as `exists = false`,
while fetched content whose structured header is missing or unparsable is
recorded as `exists = true` with `completedAt` absent — an unparsable header
is never conflated with non-existence. -/
theorem buildArtifactStates_absorbs_failures (p : MatterParser) (fetch : Fetcher)
    (arts : List ArtifactRef) (filename : String)
    (hchain : filename ∈ PIPELINE_CHAIN)
    (href : filename ∈ existingFiles arts) :
    (fetch filename = none →
      buildArtifactStates p fetch arts filename =
        some { filename := filename, exists' := false }) ∧
    (∀ content, fetch filename = some content →
      (p content = none ∨ p content = some {}) →
      ∃ st, buildArtifactStates p fetch arts filename = some st ∧
        st.exists' = true ∧ st.completedAt = none) := by
  constructor
  · intro hfetch
    simp [buildArtifactStates, buildArtifactState, hchain, href, hfetch]
  · intro content hfetch hparse
    have hfm : parseArtifactFrontmatter p content = ({} : Frontmatter) := by
      rcases hparse with h | h <;> simp [parseArtifactFrontmatter, h]
    refine ⟨buildArtifactState p fetch (existingFiles arts) filename, ?_, ?_, ?_⟩
    · simp [buildArtifactStates, hchain]
    · simp [buildArtifactState, href, hfetch]
    · simp [buildArtifactState, href, hfetch, hfm]

theorem buildArtifactStates_absorbs_failures_witness :
    buildArtifactStates parserThrows fetchThrows artsPrd "prd.md" =
      some { filename := "prd.md", exists' := false } ∧
    ∃ st, buildArtifactStates parserThrows fetchStub artsPrd "prd.md" = some st ∧
      st.exists' = true ∧ st.completedAt = none :=
  ⟨(buildArtifactStates_absorbs_failures parserThrows fetchThrows artsPrd
      "prd.md" (by decide) (by decide)).1 rfl,
   (buildArtifactStates_absorbs_failures parserThrows fetchStub artsPrd
      "prd.md" (by decide) (by decide)).2 "# document" rfl (Or.inl rfl)⟩

theorem countCompletedFrom_le (f : Nat → Bool) :
    ∀ (fuel i : Nat), countCompletedFrom f i fuel ≤ fuel
  | 0, _ => Nat.le_refl 0
  | fuel + 1, i => by
    unfold countCompletedFrom
    split
    · exact Nat.succ_le_succ (countCompletedFrom_le f fuel (i + 1))
    · exact Nat.zero_le _

theorem countCompletedFrom_full (f : Nat → Bool) :
    ∀ (fuel i : Nat), (∀ j, i ≤ j → j < i + fuel → f j = true) →
      countCompletedFrom f i fuel = fuel
  | 0, _, _ => rfl
  | fuel + 1, i, hall => by
    unfold countCompletedFrom
    rw [hall i (Nat.le_refl i) (by omega)]
    simp only [if_true]
    rw [countCompletedFrom_full f fuel (i + 1) (fun j hj hj' => hall j (by omega) (by omega))]

theorem countCompletedMilestones_le (f : Nat → Bool) :
    countCompletedMilestones f ≤ 100 :=
  countCompletedFrom_le f 100 1

theorem countCompletedMilestones_full (f : Nat → Bool)
    (hall : ∀ j, 1 ≤ j → j < 101 → f j = true) :
    countCompletedMilestones f = 100 :=
  countCompletedFrom_full f 100 1 (fun j h1 h2 => hall j h1 (by omega))

/-- Claim C9: the `completedMilestones` value recorded for progress.md is
always an integer between 0 and 100 inclusive: the contiguous-prefix scan
over per-milestone completion markers stops after index 100, so a contiguous
run of more than 100 markers (here: truthy markers at every index up to 101)
is reported as exactly 100 rather than its true length. -/
theorem buildArtifactStates_completedMilestones_le_100 (p : MatterParser)
    (fetch : Fetcher) (arts : List ArtifactRef) :
    (∀ st c, buildArtifactStates p fetch arts "progress.md" = some st →
      st.completedMilestones = some c → c ≤ 100) ∧
    (∀ content fm, "progress.md" ∈ existingFiles arts →
      fetch "progress.md" = some content →
      parseArtifactFrontmatter p content = fm →
      (∀ i, 1 ≤ i → i ≤ 101 → fm.mCompleted i = true) →
      ∃ st, buildArtifactStates p fetch arts "progress.md" = some st ∧
        st.completedMilestones = some 100) := by
  constructor
  · intro st c hst hc
    have hchain : ("progress.md" : String) ∈ PIPELINE_CHAIN := by decide
    rw [buildArtifactStates] at hst
    rw [if_pos hchain] at hst
    rcases Option.some.inj hst with rfl
    unfold buildArtifactState at hc
    split at hc
    · simp at hc
    · split at hc
      · simp at hc
      · simp at hc
        rename_i content heq
        have hle := countCompletedMilestones_le
          (parseArtifactFrontmatter p content).mCompleted
        omega
  · intro content fm href hfetch hfm hall
    have hchain : ("progress.md" : String) ∈ PIPELINE_CHAIN := by decide
    refine ⟨buildArtifactState p fetch (existingFiles arts) "progress.md", ?_, ?_⟩
    · rw [buildArtifactStates, if_pos hchain]
    · unfold buildArtifactState
      rw [if_neg (by simpa using href), hfetch]
      simp only [hfm]
      simp [countCompletedMilestones_full fm.mCompleted
        (fun j h1 h2 => hall j h1 (by omega))]

theorem buildArtifactStates_completedMilestones_le_100_witness :
    ∃ st, buildArtifactStates parserAllMilestones fetchStub artsProgress
        "progress.md" = some st ∧
      st.completedMilestones = some 100 :=
  (buildArtifactStates_completedMilestones_le_100 parserAllMilestones
      fetchStub artsProgress).2
    "# document" fmAllMilestones (by decide) rfl rfl
    (fun i h1 h2 => rfl)
